import Mathlib

/-!
# fred_exporter — verification of the refresh/export engine

A shallow embedding of the core of `hodgesds/fred_exporter`:
the per-series freshness policy (`collectorSeries.shouldUpdate`),
the export pass (`fredCollector.Collect`), collector construction
(`NewFredCollector`), observation decoding (`Observation.UnmarshalJSON`),
the rate-limited round tripper (`RateLimitedRoundTripper.RoundTrip`),
and Go `encoding/json` field resolution for the response structs.

Conventions of the embedding:
* Go `time.Time` instants are modelled in whole seconds (`Int`); the
  spec's boundary conditions are stated at one-second granularity.
  `GoTime` bundles the instant with the calendar month and year that
  Go's `Time.Month()` / `Time.Year()` would report for it, since
  `shouldUpdate` consults exactly those two calendar projections.
* `float64` values are modelled as `Rat`; none of the verified
  properties depend on rounding.
* Fallible Go functions return `Except`/`Option`; a nil-pointer
  dereference (a runtime panic) is modelled as `Option.none`.
-/

/-- Model of `time.Duration` arithmetic: one hour in seconds. -/
def hourSec : Int := 3600

/-- One day (24 h) in seconds. -/
def daySec : Int := 24 * hourSec

/-- Calendar instant: `sec` is the absolute instant in seconds; `month`
(1 = January … 12 = December) and `year` are the calendar fields Go's
`now.Month()` and `now.Year()` return for that instant. -/
structure GoTime where
  sec : Int
  month : Nat
  year : Int
deriving DecidableEq, Repr

/-- Embeds `isLeapYear` (go.mod lines 48–64): nested `%4`/`%100`/`%400`
tests, returning the `leapFlag`. -/
def isLeapYear (year : Int) : Bool :=
  if year % 4 = 0 then
    if year % 100 = 0 then
      if year % 400 = 0 then true else false
    else true
  else false

/-- Embeds the `collectorSeries` struct (go.mod lines 352–358).  The
shared `prometheus.Desc` field is omitted: it is the same constant
descriptor for every series and carries no per-series state. -/
structure CollectorSeries where
  title : String
  lastUpdate : Int
  value : Rat
  frequency : String
deriving DecidableEq, Repr

/-- Embeds `collectorSeries.shouldUpdate` (go.mod lines 360–394): a
switch on the frequency code; each case tests
`now.After(cs.lastUpdate.Add(threshold))`, i.e. strict inequality of
instants; the monthly case switches on the current month, with the
February threshold picked by `isLeapYear(now.Year())`; unrecognized
codes fall to `default: return true`. -/
def CollectorSeries.shouldUpdate (cs : CollectorSeries) (now : GoTime) : Bool :=
  if cs.frequency = "d" ∨ cs.frequency = "D" ∨ cs.frequency = "Daily" then
    decide (now.sec > cs.lastUpdate + 24 * hourSec)
  else if cs.frequency = "w" ∨ cs.frequency = "W" ∨ cs.frequency = "Weekly" then
    decide (now.sec > cs.lastUpdate + 7 * daySec)
  else if cs.frequency = "bw" ∨ cs.frequency = "BW" ∨ cs.frequency = "Biweekly" then
    decide (now.sec > cs.lastUpdate + 14 * daySec)
  else if cs.frequency = "m" ∨ cs.frequency = "M" ∨ cs.frequency = "Monthly" then
    if now.month = 1 ∨ now.month = 3 ∨ now.month = 5 ∨ now.month = 7 ∨
        now.month = 8 ∨ now.month = 10 ∨ now.month = 12 then
      decide (now.sec > cs.lastUpdate + 31 * daySec)
    else if now.month = 4 ∨ now.month = 6 ∨ now.month = 9 ∨ now.month = 11 then
      decide (now.sec > cs.lastUpdate + 30 * daySec)
    else if now.month = 2 then
      if isLeapYear now.year then
        decide (now.sec > cs.lastUpdate + 28 * daySec)
      else
        decide (now.sec > cs.lastUpdate + 29 * daySec)
    else
      true
  else if cs.frequency = "q" ∨ cs.frequency = "Q" ∨ cs.frequency = "Quarterly" then
    decide (now.sec > cs.lastUpdate + 91 * daySec)
  else if cs.frequency = "sa" ∨ cs.frequency = "SA" ∨ cs.frequency = "Semiannual" then
    decide (now.sec > cs.lastUpdate + 182 * daySec)
  else if cs.frequency = "a" ∨ cs.frequency = "A" ∨ cs.frequency = "Annual" then
    decide (now.sec > cs.lastUpdate + 365 * daySec)
  else
    true

/-- The threshold table of spec §4.3, written from the spec's words:
daily 24h, weekly 7d, biweekly 14d, monthly 31d for 31-day months and
30d for 30-day months, February 28d in a leap year of the current
calendar year and 29d otherwise, quarterly 91d, semiannual 182d,
annual 365d; `none` for an unknown code (always stale). -/
def specThreshold (freq : String) (now : GoTime) : Option Int :=
  if freq = "d" ∨ freq = "D" ∨ freq = "Daily" then some (24 * hourSec)
  else if freq = "w" ∨ freq = "W" ∨ freq = "Weekly" then some (7 * daySec)
  else if freq = "bw" ∨ freq = "BW" ∨ freq = "Biweekly" then some (14 * daySec)
  else if freq = "m" ∨ freq = "M" ∨ freq = "Monthly" then
    if now.month = 1 ∨ now.month = 3 ∨ now.month = 5 ∨ now.month = 7 ∨
        now.month = 8 ∨ now.month = 10 ∨ now.month = 12 then
      some (31 * daySec)
    else if now.month = 4 ∨ now.month = 6 ∨ now.month = 9 ∨ now.month = 11 then
      some (30 * daySec)
    else if now.month = 2 then
      some ((if isLeapYear now.year then 28 else 29) * daySec)
    else
      none
  else if freq = "q" ∨ freq = "Q" ∨ freq = "Quarterly" then some (91 * daySec)
  else if freq = "sa" ∨ freq = "SA" ∨ freq = "Semiannual" then some (182 * daySec)
  else if freq = "a" ∨ freq = "A" ∨ freq = "Annual" then some (365 * daySec)
  else none

/-- Spec-side staleness decision (§4.3): stale exactly when strictly
more than the threshold has elapsed since the last refresh ("equal to
threshold ⇒ not yet stale; one second past ⇒ stale"); always stale on
an unknown code. -/
def specStale (freq : String) (lastRefresh : Int) (now : GoTime) : Bool :=
  match specThreshold freq now with
  | some t => decide (now.sec - lastRefresh > t)
  | none => true

/-- A calendar date as produced by Go's `time.Parse("2006-01-02", s)`. -/
structure GoDate where
  year : Nat
  month : Nat
  day : Nat
deriving DecidableEq, Repr

/-- The zero value of Go's `time.Time`: January 1, year 1. -/
def goZeroDate : GoDate := ⟨1, 1, 1⟩

/-- Numeric value of a digit string. -/
def digitsVal (l : List Char) : Nat :=
  l.foldl (fun a c => a * 10 + (c.toNat - 48)) 0

/-- Models Go's `time.Parse("2006-01-02", s)` (standard library, not
repository code): accepts exactly `YYYY-MM-DD` with all-digit
components and a calendar-valid month and day, rejecting anything
else. -/
def parseDate (s : String) : Option GoDate :=
  match s.toList with
  | [y1, y2, y3, y4, '-', m1, m2, '-', d1, d2] =>
    if ([y1, y2, y3, y4, m1, m2, d1, d2].all Char.isDigit) then
      let y := digitsVal [y1, y2, y3, y4]
      let m := digitsVal [m1, m2]
      let d := digitsVal [d1, d2]
      if 1 ≤ m ∧ m ≤ 12 ∧ 1 ≤ d ∧ d ≤ 31 then some ⟨y, m, d⟩ else none
    else none
  | _ => none

/-- Models the plain-decimal fragment of Go's `strconv.ParseFloat`
(standard library, not repository code): an optional sign, then digits
with at most one decimal point and at least one digit.  All value
strings sent by the provider fall in this fragment; every non-numeric
string is rejected, which is the behaviour the claims depend on.
Values are read exactly, as rationals. -/
def parseFloat (s : String) : Option Rat :=
  let (sign, body) : Int × List Char :=
    match s.toList with
    | '-' :: r => (-1, r)
    | '+' :: r => (1, r)
    | r => (1, r)
  let intPart := body.takeWhile (· ≠ '.')
  let rest := body.dropWhile (· ≠ '.')
  let fracPart := rest.drop 1
  if fracPart.all (· ≠ '.') then
    if (intPart ++ fracPart).all Char.isDigit ∧ intPart ++ fracPart ≠ [] then
      if fracPart = [] then
        some ((sign * (digitsVal intPart : Int) : Int) : Rat)
      else
        some (((sign * (digitsVal (intPart ++ fracPart) : Int) : Int) : Rat) /
          ((10 : Rat) ^ fracPart.length))
    else none
  else none

/-- The intermediate string-typed record `Observation.UnmarshalJSON`
decodes the raw JSON into (go.mod lines 97–102); the raw JSON step
itself is `encoding/json`, external to the core. -/
structure RawObservation where
  realtimeStart : String
  realtimeEnd : String
  date : String
  value : String
deriving DecidableEq, Repr

/-- Embeds the `Observation` struct (go.mod lines 89–94), with `Rat`
for `float64`.  A freshly allocated Go `Observation` has the zero
date in each time field and `0` in `Value`. -/
structure Observation where
  realtimeStart : GoDate := goZeroDate
  realtimeEnd : GoDate := goZeroDate
  date : GoDate := goZeroDate
  value : Rat := 0
deriving DecidableEq, Repr

/-- Embeds `Observation.UnmarshalJSON` (go.mod lines 96–131) from the
point after the raw JSON decode: parse the three date strings in turn
(any failure is a decode error); if the value string is the sentinel
`"."` return successfully with `Value` untouched (the zero value of
the fresh struct); otherwise `strconv.ParseFloat` it, failing on a
parse error. -/
def Observation.unmarshalJSON (s : RawObservation) : Except String Observation :=
  match parseDate s.realtimeStart with
  | none => .error "cannot parse realtime_start"
  | some t1 =>
    match parseDate s.realtimeEnd with
    | none => .error "cannot parse realtime_end"
    | some t2 =>
      match parseDate s.date with
      | none => .error "cannot parse date"
      | some t3 =>
        if s.value = "." then
          .ok { realtimeStart := t1, realtimeEnd := t2, date := t3 }
        else
          match parseFloat s.value with
          | none => .error "cannot parse value"
          | some f => .ok { realtimeStart := t1, realtimeEnd := t2, date := t3, value := f }

/-- The part of the decoded `SeriesResponse` (go.mod lines 133–149)
that `fredCollector.Collect` consults: the `Error` string and the
observation list.  The remaining fields (dates, paging data) are
never read by the export pass. -/
structure SeriesResponseCore where
  error : String
  observations : List Observation
deriving DecidableEq, Repr

/-- Result of `fredCollector.getSeries` as seen by `Collect`:
either a transport/decode error (`getSeries` returned `nil, err`)
or a decoded response. -/
inductive FetchOutcome where
  | fail (msg : String)
  | ok (res : SeriesResponseCore)
deriving DecidableEq, Repr

/-- Returns `true` exactly when the outcome is a transport/decode failure. -/
def FetchOutcome.isFail : FetchOutcome → Bool
  | .fail _ => true
  | .ok _ => false

/-- Models Go's `strings.ToLower` on the ASCII range (series
identifiers and titles are ASCII), written as a structural character
map. -/
def goToLower (s : String) : String :=
  String.mk (s.toList.map Char.toLower)

/-- Embeds `metricName` (go.mod lines 553–555):
`strings.ToLower(strings.Replace(strings.Replace(s, ":", "_", -1), "-", "_", -1))`.
Both replaced patterns are single characters, so `strings.Replace`
with count −1 is a per-character substitution. -/
def metricName (s : String) : String :=
  goToLower (String.mk ((s.toList.map fun c => if c = ':' then '_' else c).map
    fun c => if c = '-' then '_' else c))

/-- The guard of go.mod line 533 (`if res.Error != ""`), the branch
that treats a decoded response as a provider-level rejection. -/
def providerErrorGuard (res : SeriesResponseCore) : Bool :=
  res.error ≠ ""

/-- What one run of `fredCollector.Collect` did: the metric samples
sent to the channel in order, the series ids for which `getSeries`
was invoked in order, the per-series states after the pass, and
whether the pass was aborted by an early `return`. -/
structure CollectResult where
  emitted : List (String × Rat)
  fetched : List String
  series : List (String × CollectorSeries)
  aborted : Bool
deriving DecidableEq, Repr

/-- Embeds `fredCollector.Collect` (go.mod lines 523–551).  The map
iteration is modelled as a list in some order (Go map order is
arbitrary); `fetch` stands for `getSeries`.  Faithful to the source:
the `if cs.shouldUpdate()` gate at line 527 is commented out in the
source, so every series is fetched unconditionally; a fetch error
`return`s (aborting the rest of the pass, already-sent samples
staying sent); a non-empty `res.Error` advances `lastUpdate` to now
and `continue`s (skipping the emit); with at least one observation
the last observation's value and `now` are written; the sample sent
carries the (possibly just updated) cached value. -/
def Collect (fetch : String → FetchOutcome) (now : GoTime) :
    List (String × CollectorSeries) → CollectResult
  | [] => ⟨[], [], [], false⟩
  | (name, cs) :: rest =>
    match fetch name with
    | .fail _ => ⟨[], [name], (name, cs) :: rest, true⟩
    | .ok res =>
      if providerErrorGuard res then
        let cs' := { cs with lastUpdate := now.sec }
        let r := Collect fetch now rest
        ⟨r.emitted, name :: r.fetched, (name, cs') :: r.series, r.aborted⟩
      else
        let cs' :=
          if h : res.observations ≠ [] then
            { cs with value := (res.observations.getLast h).value, lastUpdate := now.sec }
          else cs
        let r := Collect fetch now rest
        ⟨(metricName name, cs'.value) :: r.emitted, name :: r.fetched,
          (name, cs') :: r.series, r.aborted⟩

/-- The fields of a decoded `SeriesMetadata` record (go.mod lines
215–233) that `NewFredCollector` reads: the display title and the
short frequency code. -/
structure SeriesMetadataCore where
  title : String
  frequencyShort : String
deriving DecidableEq, Repr

/-- The part of a decoded `SeriesMetadataResponse` (go.mod lines
308–314) that `NewFredCollector` reads. -/
structure MetaResponseCore where
  error : String
  series : List SeriesMetadataCore
deriving DecidableEq, Repr

/-- Result of `fredCollector.getMeta`: `fail` when it returned
`nil, err` (the response pointer is nil), `ok` with the decoded
response otherwise. -/
inductive MetaOutcome where
  | fail (msg : String)
  | ok (resp : MetaResponseCore)
deriving DecidableEq, Repr

/-- Embeds the registration loop of `NewFredCollector` (go.mod lines
424–446), `getMeta` abstracted as an oracle.  For each configured id
the source first evaluates `meta.Error != ""`; when `getMeta`
returned an error, `meta` is nil and that field access dereferences a
nil pointer — a runtime panic, modelled as `none` for the whole
constructor.  A non-empty `meta.Error` `continue`s, skipping the
registration of that id.  Otherwise the series is registered with
title `strings.ToLower(s)` and empty frequency when the metadata list
is empty, and the first record's title and short frequency otherwise;
`lastUpdate` and `value` stay at their zero values. -/
def NewFredCollector (getMeta : String → MetaOutcome) :
    List String → Option (List (String × CollectorSeries))
  | [] => some []
  | s :: rest =>
    match getMeta s with
    | .fail _ => none
    | .ok meta =>
      if meta.error ≠ "" then
        NewFredCollector getMeta rest
      else
        let entry : CollectorSeries :=
          match meta.series with
          | [] => { title := goToLower s, lastUpdate := 0, value := 0, frequency := "" }
          | m :: _ => { title := m.title, lastUpdate := 0, value := 0, frequency := m.frequencyShort }
        (NewFredCollector getMeta rest).map ((s, entry) :: ·)

/-- State of the caller's `context.Context` as the rate-limiter wait
observes it. -/
inductive CtxState where
  | active
  | cancelled
deriving DecidableEq, Repr

/-- Models `rate.Limiter.Wait(ctx)` (golang.org/x/time/rate, external
to the repository): returns a non-nil error exactly when the context
is cancelled or times out while waiting. -/
def limiterWait : CtxState → Except String Unit
  | .active => .ok ()
  | .cancelled => .error "context canceled while waiting for rate limiter"

/-- Embeds `RateLimitedRoundTripper.RoundTrip` (roundtripper.go lines
21–24).  Line 22 calls `r.l.Wait(req.Context())` and discards its
return value; line 23 then calls the wrapped transport
unconditionally.  `inner` stands for `r.rt.RoundTrip`; the result is
whatever `inner` returns, whatever `limiterWait` said. -/
def RoundTrip (ctx : CtxState) (inner : CtxState → Nat) : Nat :=
  let _ := limiterWait ctx
  inner ctx

/-- Field/tag pairs (Go field name, declared JSON name) of the
anonymous struct that `SeriesResponse.UnmarshalJSON` decodes into
(go.mod lines 152–168).  Both `ErrorCode` and `Error` are tagged
`error_code`. -/
def seriesResponseTags : List (String × String) :=
  [("RealtimeStart", "realtime_start"), ("RealtimeEnd", "realtime_end"),
   ("ObservationStart", "observation_start"), ("ObservationEnd", "observation_end"),
   ("Units", "units"), ("OutputType", "output_type"), ("FileType", "file_type"),
   ("OrderBy", "order_by"), ("SortOrder", "sort_order"), ("Count", "count"),
   ("Offset", "offset"), ("Limit", "limit"), ("ErrorCode", "error_code"),
   ("Error", "error_code"), ("Observations", "observations")]

/-- Field/tag pairs (Go field name, declared JSON name) of the
anonymous struct that `SeriesMetadataResponse.UnmarshalJSON` decodes
into (go.mod lines 317–323).  Both `ErrorCode` and `Error` are tagged
`error_code`. -/
def metaResponseTags : List (String × String) :=
  [("RealtimeStart", "realtime_start"), ("RealtimeEnd", "realtime_end"),
   ("ErrorCode", "error_code"), ("Error", "error_code"), ("Series", "seriess")]

/-- The JSON tag declared for a Go field. -/
def tagOf (tags : List (String × String)) (goField : String) : Option String :=
  (tags.find? (fun p => p.1 = goField)).map (·.2)

/-- Models Go `encoding/json` field resolution (standard library, not
repository code): per its documentation, when several fields of one
struct carry the same JSON name, none of them is filled and no error
is raised.  A field is visible to the decoder exactly when its tag is
carried by no other field. -/
def fieldVisible (tags : List (String × String)) (goField : String) : Bool :=
  match tagOf tags goField with
  | some t => tags.countP (fun p => p.2 = t) = 1
  | none => false

/-- Models decoding one string-typed field with `encoding/json`: the
JSON object is an association list from keys to string values; a
field that is invisible (conflicting tag) or whose key is absent is
left at its zero value `""`. -/
def decodeStringField (tags : List (String × String)) (goField : String)
    (obj : List (String × String)) : String :=
  if fieldVisible tags goField then
    match tagOf tags goField with
    | some t => ((obj.find? (fun p => p.1 = t)).map (·.2)).getD ""
    | none => ""
  else ""

/-- One registry write performed by a refresh inside
`fredCollector.Collect`: line 539 writes `cs.value`, line 540 writes
`cs.lastUpdate` — two separate stores. -/
inductive RegistryWrite where
  | writeValue (v : Rat)
  | writeTime (t : Int)
deriving DecidableEq, Repr

/-- The write sequence of one successful refresh (go.mod lines
539–540): the value store, then the timestamp store. -/
def refreshWrites (v : Rat) (t : Int) : List RegistryWrite :=
  [.writeValue v, .writeTime t]

/-- The mutable per-series registry cell the writes target. -/
structure SeriesCell where
  value : Rat
  lastUpdate : Int
deriving DecidableEq, Repr

/-- Apply one store to the cell. -/
def applyWrite (s : SeriesCell) : RegistryWrite → SeriesCell
  | .writeValue v => { s with value := v }
  | .writeTime t => { s with lastUpdate := t }

/-- Run a schedule of stores against the cell. -/
def runWrites (s : SeriesCell) (l : List RegistryWrite) : SeriesCell :=
  l.foldl applyWrite s

/-- Interleaving check: `isInterleave a b c` holds when `c` is an
interleaving of the two threads' event lists `a` and `b` (each
thread's own order preserved).
`Collect` holds only the shared read lock (`RLock`, go.mod lines 524
and 550) while storing, and `RLock` holders do not exclude one
another, so every interleaving of two concurrent passes' stores is a
legal execution. -/
def isInterleave : List RegistryWrite → List RegistryWrite → List RegistryWrite → Bool
  | [], [], [] => true
  | as, bs, c :: cs =>
    (match as with
     | a :: as' => a == c && isInterleave as' bs cs
     | [] => false) ||
    (match bs with
     | b :: bs' => b == c && isInterleave as bs' cs
     | [] => false)
  | _, _, [] => false

/-! ## Concrete fixtures used by the theorems below -/

/-- A registered daily series holding cached value 5, last refreshed
at instant 0. -/
def dailySeries : CollectorSeries :=
  { title := "t", lastUpdate := 0, value := 5, frequency := "d" }

/-- An instant 12 hours after `dailySeries`'s last refresh, in July
2024: the daily 24h threshold has not elapsed, so the series is
fresh. -/
def julyNoon : GoTime := { sec := 12 * hourSec, month := 7, year := 2024 }

/-- An observation with value 7. -/
def obs7 : Observation := { value := 7 }

/-- Fetch oracle: series `"A"` succeeds with one observation of value
7, every other id fails with a transport error. -/
def failB : String → FetchOutcome :=
  fun s => if s = "A" then .ok ⟨"", [obs7]⟩ else .fail "dial tcp: connection refused"

/-- Fetch oracle: every fetch succeeds with an empty error field and
zero observations. -/
def emptyOk : String → FetchOutcome := fun _ => .ok ⟨"", []⟩

/-- Fetch oracle: every fetch returns a well-formed response whose
provider error field is non-empty. -/
def rejectAll : String → FetchOutcome :=
  fun _ => .ok ⟨"Bad Request.  The series does not exist.", []⟩

/-- A series last refreshed at instant 5 with cached value 3. -/
def staleSeries : CollectorSeries :=
  { title := "t", lastUpdate := 5, value := 3, frequency := "d" }

/-- An instant (second 100) later than `staleSeries.lastUpdate`. -/
def tLater : GoTime := { sec := 100, month := 7, year := 2024 }

/-- Metadata oracle: every metadata fetch returns a well-formed
response carrying a provider application-level error. -/
def metaReject : String → MetaOutcome := fun _ => .ok ⟨"Bad Request", []⟩

/-- Metadata oracle: every metadata fetch fails with a transport
error (`getMeta` returns `nil, err`). -/
def metaDial : String → MetaOutcome := fun _ => .fail "dial tcp: connection refused"

/-- A raw observation with valid dates and the missing-value sentinel
`"."` in the value field. -/
def rawDot : RawObservation := ⟨"2024-01-02", "2024-01-03", "2024-01-01", "."⟩

/-- The same raw observation with the genuine numeric value `"0"`. -/
def rawZero : RawObservation := ⟨"2024-01-02", "2024-01-03", "2024-01-01", "0"⟩

/-- A schedule of the stores of two overlapping refreshes of one
series — refresh 1 writes (value 10, time 100), refresh 2 writes
(value 20, time 200) — in which refresh 2's stores fall between
refresh 1's value store and its timestamp store. -/
def tornSchedule : List RegistryWrite :=
  [.writeValue 10, .writeValue 20, .writeTime 200, .writeTime 100]

/-! ## Claims -/

/-- C1: the claim says a series evaluated fresh by the freshness
policy is not fetched during an export cycle.  In the source the
`if cs.shouldUpdate()` gate (go.mod line 527) is commented out, so
`Collect` fetches every series unconditionally: here a daily series
last refreshed 12 hours ago is fresh (`shouldUpdate` is `false`),
yet the cycle invokes a fetch for it; the cached value is emitted
unchanged. -/
theorem collect_ignores_freshness_gate :
    dailySeries.shouldUpdate julyNoon = false ∧
    (Collect emptyOk julyNoon [("CPIAUCSL", dailySeries)]).fetched = ["CPIAUCSL"] ∧
    (Collect emptyOk julyNoon [("CPIAUCSL", dailySeries)]).emitted = [("cpiaucsl", 5)] := by
  decide

/-- C2 counterexample: a transport error is not all-or-nothing.  In a
cycle over `[A, B]` where `A` succeeds and `B` fails with a transport
error, the cycle is aborted but the sample already sent for `A`
stays emitted — the cycle emits one sample, not zero. -/
theorem collect_transport_error_partial_emit :
    (Collect failB julyNoon [("A", dailySeries), ("B", dailySeries)]).aborted = true ∧
    (Collect failB julyNoon [("A", dailySeries), ("B", dailySeries)]).emitted = [("a", 7)] := by
  decide

/-- C2 amended: a transport error on a series aborts the cycle at
that series — no sample is emitted for it or for any series after it,
while the samples of the series processed before it remain emitted
(they were already sent to the channel before the early `return` of
go.mod line 531). -/
theorem collect_transport_error_aborts_after_prefix
    (fetch : String → FetchOutcome) (now : GoTime)
    (pre post : List (String × CollectorSeries)) (name : String) (cs : CollectorSeries)
    (hpre : ∀ p ∈ pre, (fetch p.1).isFail = false)
    (hfail : (fetch name).isFail = true) :
    (Collect fetch now (pre ++ (name, cs) :: post)).aborted = true ∧
    (Collect fetch now (pre ++ (name, cs) :: post)).emitted = (Collect fetch now pre).emitted := by
  induction pre with
  | nil =>
    simp only [List.nil_append]
    cases h : fetch name with
    | fail msg => simp [Collect, h]
    | ok res => rw [h] at hfail; simp [FetchOutcome.isFail] at hfail
  | cons p pre ih =>
    obtain ⟨pname, pcs⟩ := p
    have hp : (fetch pname).isFail = false := hpre (pname, pcs) (by simp)
    have hrest : ∀ q ∈ pre, (fetch q.1).isFail = false := fun q hq => hpre q (by simp [hq])
    have hih := ih hrest
    cases h : fetch pname with
    | fail msg => rw [h] at hp; simp [FetchOutcome.isFail] at hp
    | ok res =>
      by_cases hg : providerErrorGuard res
      · simp [Collect, h, hg, hih.1, hih.2]
      · simp [Collect, h, hg, hih.1, hih.2]

/-- C2 witness: the amended theorem instantiated on the concrete
two-series cycle of the counterexample. -/
theorem collect_transport_error_aborts_after_prefix_witness :
    (Collect failB julyNoon ([("A", dailySeries)] ++ ("B", dailySeries) :: [])).aborted = true ∧
    (Collect failB julyNoon ([("A", dailySeries)] ++ ("B", dailySeries) :: [])).emitted =
      (Collect failB julyNoon [("A", dailySeries)]).emitted :=
  collect_transport_error_aborts_after_prefix failB julyNoon [("A", dailySeries)] []
    "B" dailySeries (by decide) (by decide)

/-- C3 counterexample: a provider-rejected response does not leave
the series "still emitted".  With a fetch returning a well-formed
response whose error field is non-empty, the cycle is not aborted,
the cached value is unchanged and the last-refresh timestamp is
advanced to now — but the `continue` of go.mod line 536 skips the
emit, so no sample at all is emitted for the series. -/
theorem collect_provider_error_no_emit :
    (Collect rejectAll julyNoon [("X", dailySeries)]).emitted = [] ∧
    (Collect rejectAll julyNoon [("X", dailySeries)]).aborted = false ∧
    (Collect rejectAll julyNoon [("X", dailySeries)]).series =
      [("X", { title := "t", lastUpdate := julyNoon.sec, value := 5, frequency := "d" })] := by
  decide

/-- C3 amended: on a fetch that returns a response with a non-empty
provider error field, the cycle is not aborted, the series' cached
value is left unchanged, its last-refresh timestamp is advanced to
now, and the cycle's samples are exactly the remaining series' — the
affected series is skipped, not emitted. -/
theorem collect_provider_error_behavior
    (fetch : String → FetchOutcome) (now : GoTime) (name : String)
    (cs : CollectorSeries) (rest : List (String × CollectorSeries)) (res : SeriesResponseCore)
    (hf : fetch name = .ok res) (he : providerErrorGuard res = true) :
    Collect fetch now ((name, cs) :: rest) =
      { emitted := (Collect fetch now rest).emitted,
        fetched := name :: (Collect fetch now rest).fetched,
        series := (name, { cs with lastUpdate := now.sec }) :: (Collect fetch now rest).series,
        aborted := (Collect fetch now rest).aborted } := by
  simp [Collect, hf, he]

/-- C3 witness: the amended theorem instantiated on a one-series
cycle whose fetch is provider-rejected. -/
theorem collect_provider_error_behavior_witness :
    Collect rejectAll julyNoon [("X", dailySeries)] =
      { emitted := (Collect rejectAll julyNoon []).emitted,
        fetched := "X" :: (Collect rejectAll julyNoon []).fetched,
        series := ("X", { dailySeries with lastUpdate := julyNoon.sec }) ::
          (Collect rejectAll julyNoon []).series,
        aborted := (Collect rejectAll julyNoon []).aborted } :=
  collect_provider_error_behavior rejectAll julyNoon "X" dailySeries []
    ⟨"Bad Request.  The series does not exist.", []⟩ rfl (by decide)

/-- Helper: `shouldUpdate` coincides with the spec-side staleness
decision on every series state and instant. -/
theorem shouldUpdate_eq_specStale (cs : CollectorSeries) (now : GoTime) :
    cs.shouldUpdate now = specStale cs.frequency cs.lastUpdate now := by
  unfold CollectorSeries.shouldUpdate specStale specThreshold
  split_ifs <;> simp <;> omega

/-- Helper: on any frequency the threshold table covers, `shouldUpdate`
is exactly "strictly more than the threshold has elapsed". -/
theorem shouldUpdate_threshold_boundary (cs : CollectorSeries) (now : GoTime) (t : Int)
    (h : specThreshold cs.frequency now = some t) :
    cs.shouldUpdate now = decide (now.sec > cs.lastUpdate + t) := by
  unfold specThreshold at h
  unfold CollectorSeries.shouldUpdate
  split_ifs at h ⊢ <;> simp_all <;> omega

/-- Helper: in February the monthly threshold is 28 days when the
current year is a leap year, 29 days otherwise. -/
theorem specThreshold_february (now : GoTime) (h : now.month = 2) :
    specThreshold "m" now = some ((if isLeapYear now.year then 28 else 29) * daySec) := by
  simp [specThreshold, h]

/-- C4: the freshness decision of `shouldUpdate` agrees with the
threshold table of spec §4.3 for every frequency code, last-refresh
instant and current instant: it equals `specStale` everywhere; on
every code the table covers it is exactly "strictly more than the
threshold has elapsed" (so elapsed = threshold is not yet stale and
one second past is stale); the February monthly threshold is 28 days
when the current calendar year is a proleptic-Gregorian leap year and
29 days otherwise, and the leap rule classifies 1900 and 2100 as not
leap, 2000 and 2024 as leap. -/
theorem shouldUpdate_matches_threshold_table :
    (∀ (cs : CollectorSeries) (now : GoTime),
      cs.shouldUpdate now = specStale cs.frequency cs.lastUpdate now) ∧
    (∀ (cs : CollectorSeries) (now : GoTime) (t : Int),
      specThreshold cs.frequency now = some t →
      cs.shouldUpdate now = decide (now.sec > cs.lastUpdate + t)) ∧
    (∀ now : GoTime, now.month = 2 →
      specThreshold "m" now = some ((if isLeapYear now.year then 28 else 29) * daySec)) ∧
    isLeapYear 1900 = false ∧ isLeapYear 2000 = true ∧
    isLeapYear 2024 = true ∧ isLeapYear 2100 = false :=
  ⟨shouldUpdate_eq_specStale, shouldUpdate_threshold_boundary, specThreshold_february,
    by decide, by decide, by decide, by decide⟩

/-- C4 witness: the boundary conjunct instantiated on a daily series
observed exactly 24 hours after its last refresh — elapsed equal to
the threshold, hence not yet stale. -/
theorem shouldUpdate_matches_threshold_table_witness :
    dailySeries.shouldUpdate { sec := 24 * hourSec, month := 7, year := 2024 } =
      decide ((24 * hourSec : Int) > dailySeries.lastUpdate + 24 * hourSec) :=
  shouldUpdate_matches_threshold_table.2.1 dailySeries
    { sec := 24 * hourSec, month := 7, year := 2024 } (24 * hourSec) (by decide)

/-- C5 counterexample: on a successful fetch with zero observations
the last-refresh timestamp is not updated.  `Collect` only writes
`lastUpdate` inside the `len(res.Observations) > 0` branch (go.mod
lines 538–541), so with `now` at second 100 the series keeps
`lastUpdate = 5`; the series is still emitted with its cached
value. -/
theorem collect_empty_observations_keeps_lastUpdate :
    tLater.sec = 100 ∧
    (Collect emptyOk tLater [("X", staleSeries)]).series =
      [("X", { title := "t", lastUpdate := 5, value := 3, frequency := "d" })] ∧
    (Collect emptyOk tLater [("X", staleSeries)]).emitted = [("x", 3)] ∧
    (5 : Int) ≠ 100 := by
  decide

/-- C5 amended: on a successful fetch with an empty provider error
field and zero observations, the series' state — value and
last-refresh timestamp both — is left entirely unchanged, and the
series is still emitted in that cycle with its cached value. -/
theorem collect_empty_observations_behavior
    (fetch : String → FetchOutcome) (now : GoTime) (name : String)
    (cs : CollectorSeries) (rest : List (String × CollectorSeries)) (res : SeriesResponseCore)
    (hf : fetch name = .ok res) (he : providerErrorGuard res = false)
    (hobs : res.observations = []) :
    Collect fetch now ((name, cs) :: rest) =
      { emitted := (metricName name, cs.value) :: (Collect fetch now rest).emitted,
        fetched := name :: (Collect fetch now rest).fetched,
        series := (name, cs) :: (Collect fetch now rest).series,
        aborted := (Collect fetch now rest).aborted } := by
  simp [Collect, hf, he, hobs]

/-- C5 witness: the amended theorem instantiated on a one-series
cycle whose fetch returns zero observations. -/
theorem collect_empty_observations_behavior_witness :
    Collect emptyOk tLater [("X", staleSeries)] =
      { emitted := (metricName "X", staleSeries.value) :: (Collect emptyOk tLater []).emitted,
        fetched := "X" :: (Collect emptyOk tLater []).fetched,
        series := ("X", staleSeries) :: (Collect emptyOk tLater []).series,
        aborted := (Collect emptyOk tLater []).aborted } :=
  collect_empty_observations_behavior emptyOk tLater "X" staleSeries [] ⟨"", []⟩
    rfl (by decide) rfl

/-- C6: the claim says a cancelled context makes the rate-limiter
acquire fail and prevents the outbound call.  `rate.Limiter.Wait`
does return a non-nil error on a cancelled context, but
`RateLimitedRoundTripper.RoundTrip` (roundtripper.go line 22)
discards that error and calls the wrapped transport unconditionally:
its result is always the inner transport's result, for every inner
transport. -/
theorem roundTrip_ignores_cancellation :
    limiterWait CtxState.cancelled =
      .error "context canceled while waiting for rate limiter" ∧
    ∀ inner : CtxState → Nat, RoundTrip CtxState.cancelled inner = inner CtxState.cancelled :=
  ⟨rfl, fun _ => rfl⟩

/-- C7 counterexample: a configured series whose startup metadata
fetch is provider-rejected is not registered at all (the `continue`
of go.mod line 430 skips it), and one whose metadata fetch fails with
a transport error crashes the constructor — `meta.Error` is read from
the nil response pointer (line 428) before `err` is checked, a
runtime panic modelled as `none`.  In neither case is a series
registered with an empty descriptor, as the claim states. -/
theorem newFredCollector_failed_meta_not_registered :
    NewFredCollector metaReject ["GDP"] = some [] ∧
    NewFredCollector metaDial ["GDP"] = none := by
  decide

/-- C7 amended: constructing the collector registers only series
whose metadata fetch succeeds with an empty provider error field: a
transport-error fetch makes the constructor dereference the nil
response and panic; a provider-rejected fetch skips the series, so
later exports omit it; a clean fetch carrying an empty metadata list
registers the series with the lowercased identifier as title and an
empty frequency, which `shouldUpdate` treats as always stale. -/
theorem newFredCollector_registration_behavior
    (getMeta : String → MetaOutcome) (s : String) (rest : List String) :
    (∀ msg, getMeta s = .fail msg → NewFredCollector getMeta (s :: rest) = none) ∧
    (∀ resp, getMeta s = .ok resp → resp.error ≠ "" →
      NewFredCollector getMeta (s :: rest) = NewFredCollector getMeta rest) ∧
    (∀ resp, getMeta s = .ok resp → resp.error = "" → resp.series = [] →
      NewFredCollector getMeta (s :: rest) =
        (NewFredCollector getMeta rest).map
          ((s, { title := goToLower s, lastUpdate := 0, value := 0, frequency := "" }) :: ·)) ∧
    (∀ (now : GoTime) (cs : CollectorSeries), cs.frequency = "" → cs.shouldUpdate now = true) := by
  refine ⟨fun msg h => ?_, fun resp h he => ?_, fun resp h he hs => ?_, fun now cs hf => ?_⟩
  · simp [NewFredCollector, h]
  · simp [NewFredCollector, h, he]
  · simp [NewFredCollector, h, he, hs]
  · simp [CollectorSeries.shouldUpdate, hf]

/-- C7 witness: the provider-rejected conjunct instantiated on one
configured series — the series is skipped. -/
theorem newFredCollector_registration_behavior_witness :
    NewFredCollector metaReject ["GDP"] = NewFredCollector metaReject [] :=
  (newFredCollector_registration_behavior metaReject "GDP" []).2.1
    ⟨"Bad Request", []⟩ rfl (by decide)

/-- C8 counterexample: the sentinel does not decode to a state
distinguishable from a real numeric value.  Decoding a raw
observation whose value field is `"."` succeeds but merely leaves
`Value` at the `float64` zero value, so it is identical to decoding
the genuine numeric string `"0"`. -/
theorem sentinel_decodes_to_plain_zero :
    Observation.unmarshalJSON rawDot = Observation.unmarshalJSON rawZero ∧
    Observation.unmarshalJSON rawDot =
      .ok { realtimeStart := ⟨2024, 1, 2⟩, realtimeEnd := ⟨2024, 1, 3⟩,
            date := ⟨2024, 1, 1⟩, value := 0 } ∧
    Observation.unmarshalJSON ⟨"2024-01-02", "2024-01-03", "2024-01-01", "xyz"⟩ =
      .error "cannot parse value" := by
  refine ⟨?_, ?_, ?_⟩ <;> rfl

/-- C8 amended: with well-formed date fields, a value field equal to
the sentinel `"."` decodes without error to the zero value (not a
distinguishable absent state); a value field that parses as a number
decodes to that number; any other value string is a decode error. -/
theorem unmarshal_value_field_behavior
    (s : RawObservation) (d1 d2 d3 : GoDate)
    (h1 : parseDate s.realtimeStart = some d1) (h2 : parseDate s.realtimeEnd = some d2)
    (h3 : parseDate s.date = some d3) :
    (s.value = "." → Observation.unmarshalJSON s = .ok ⟨d1, d2, d3, 0⟩) ∧
    (∀ f, s.value ≠ "." → parseFloat s.value = some f →
      Observation.unmarshalJSON s = .ok ⟨d1, d2, d3, f⟩) ∧
    (s.value ≠ "." → parseFloat s.value = none →
      Observation.unmarshalJSON s = .error "cannot parse value") := by
  refine ⟨fun hv => ?_, fun f hv hp => ?_, fun hv hp => ?_⟩
  · simp [Observation.unmarshalJSON, h1, h2, h3, hv]
  · simp [Observation.unmarshalJSON, h1, h2, h3, hv, hp]
  · simp [Observation.unmarshalJSON, h1, h2, h3, hv, hp]

/-- C8 witness: the sentinel conjunct instantiated on the concrete
raw observation `rawDot`. -/
theorem unmarshal_value_field_behavior_witness :
    Observation.unmarshalJSON rawDot =
      .ok ⟨⟨2024, 1, 2⟩, ⟨2024, 1, 3⟩, ⟨2024, 1, 1⟩, 0⟩ :=
  (unmarshal_value_field_behavior rawDot ⟨2024, 1, 2⟩ ⟨2024, 1, 3⟩ ⟨2024, 1, 1⟩
    rfl rfl rfl).1 rfl

/-- C9: per-series updates are not observed atomically.  A refresh
writes `cs.value` and `cs.lastUpdate` as two separate stores (go.mod
lines 539–540) while holding only the shared read lock, which does
not exclude a concurrent `Collect` holding the same read lock; in the
legal interleaving `tornSchedule` of two refreshes — (value 10,
time 100) and (value 20, time 200) — the registry cell ends at
value 20 paired with timestamp 100, mixing one refresh's value with
the other's timestamp, and any subsequent reader observes that torn
state. -/
theorem rlock_write_interleaving_torn_state :
    refreshWrites 10 100 = [.writeValue 10, .writeTime 100] ∧
    refreshWrites 20 200 = [.writeValue 20, .writeTime 200] ∧
    isInterleave (refreshWrites 10 100) (refreshWrites 20 200) tornSchedule = true ∧
    runWrites ⟨0, 0⟩ tornSchedule = { value := 20, lastUpdate := 100 } := by
  decide

/-- C10: in the anonymous structs decoded by
`SeriesResponse.UnmarshalJSON` and
`SeriesMetadataResponse.UnmarshalJSON`, the `ErrorCode` and `Error`
fields both declare the JSON name `error_code`; under Go
`encoding/json`'s conflict rule neither conflicting field is visible
to the decoder, so for every JSON object the decoded `Error` field is
the empty string and the provider-error guard of `Collect` (go.mod
line 533) is false on every decoded response — the provider-error
branches are unreachable. -/
theorem error_field_never_decoded :
    (∀ obj, decodeStringField seriesResponseTags "Error" obj = "") ∧
    (∀ obj, decodeStringField metaResponseTags "Error" obj = "") ∧
    (∀ obj obs, providerErrorGuard ⟨decodeStringField seriesResponseTags "Error" obj, obs⟩ = false) ∧
    fieldVisible seriesResponseTags "Error" = false ∧
    fieldVisible metaResponseTags "Error" = false ∧
    fieldVisible seriesResponseTags "ErrorCode" = false ∧
    fieldVisible metaResponseTags "ErrorCode" = false := by
  have hs : fieldVisible seriesResponseTags "Error" = false := by decide
  have hm : fieldVisible metaResponseTags "Error" = false := by decide
  refine ⟨fun obj => ?_, fun obj => ?_, fun obj obs => ?_, hs, hm, by decide, by decide⟩ <;>
    simp [decodeStringField, providerErrorGuard, hs, hm]
